import Mathlib

/-!
Verification of the category-store services of this repository.

Shallow embedding conventions:
* A JS `Date` is a millisecond timestamp, modelled as `Nat`.  Within one
  synchronous operation every `new Date()` / `Date.now()` call reads the same
  clock value, passed in as an explicit `now` argument.
* The Angular signal `categoriesSignal` is the explicit state of type
  `List Category`; an operation receives the current value and reports the
  value after the call.
* `Math.random()`-derived data and Firestore-assigned document ids are
  explicit arguments (`rand`, `docId`).
* Fallible backing-store accesses (`localStorage.setItem`, the Firestore
  write calls) are modelled by a Boolean argument (`persistOk` / `remoteOk`)
  saying whether the access succeeds; an operation that can propagate an
  exception returns in `Except String`, and a `.error` result models a raised
  exception reaching the caller.
* `console.error` calls are recorded in a `logged` flag; attempted
  backing-store writes in a `wrote` flag.
-/

/-- Millisecond timestamp standing for a JS `Date`. -/
abbrev Timestamp := Nat

/-- Modelled from the spec: the `Category` record of `category.model.ts`
(whose source file is not in the repository snapshot): id, name, color,
backgroundColor, icon, createdAt, updatedAt. -/
structure Category where
  id : String
  name : String
  color : String
  backgroundColor : String
  icon : String
  createdAt : Timestamp
  updatedAt : Timestamp
deriving DecidableEq, Repr

/-- Modelled from the spec: `CreateCategoryDto` — the four required input
fields for creation, no id and no timestamps. -/
structure CreateCategoryDto where
  name : String
  color : String
  backgroundColor : String
  icon : String
deriving DecidableEq, Repr

/-- Modelled from the spec: `UpdateCategoryDto` — any subset of the four
content fields; `none` models an absent (undefined) property, which the
object spread leaves unchanged. -/
structure UpdateCategoryDto where
  name : Option String := none
  color : Option String := none
  backgroundColor : Option String := none
  icon : Option String := none
deriving DecidableEq, Repr

/-- Modelled from the spec: `CategoryStats` — total, withTasks, empty. -/
structure CategoryStats where
  total : Nat
  withTasks : Nat
  empty : Nat
deriving DecidableEq, Repr

/-- Modelled from the spec: `CategoryWithCount` — a `Category` plus
`taskCount`. -/
structure CategoryWithCount where
  id : String
  name : String
  color : String
  backgroundColor : String
  icon : String
  createdAt : Timestamp
  updatedAt : Timestamp
  taskCount : Nat
deriving DecidableEq, Repr

instance {ε α : Type} [DecidableEq ε] [DecidableEq α] : DecidableEq (Except ε α)
  | .ok a, .ok b =>
    if h : a = b then .isTrue (by rw [h]) else .isFalse (fun hc => by cases hc; exact h rfl)
  | .ok _, .error _ => .isFalse (fun hc => by cases hc)
  | .error _, .ok _ => .isFalse (fun hc => by cases hc)
  | .error a, .error b =>
    if h : a = b then .isTrue (by rw [h]) else .isFalse (fun hc => by cases hc; exact h rfl)

/-- The object spread `{ ...category, ...updateCategoryDto, updatedAt: now }`
used by both services' `updateCategory`: fields defined in the DTO override
the existing record, `updatedAt` is set to the current time, everything else
(in particular `id` and `createdAt`) is kept. -/
def mergeUpdate (category : Category) (dto : UpdateCategoryDto) (now : Timestamp) : Category :=
  { id := category.id
    name := dto.name.getD category.name
    color := dto.color.getD category.color
    backgroundColor := dto.backgroundColor.getD category.backgroundColor
    icon := dto.icon.getD category.icon
    createdAt := category.createdAt
    updatedAt := now }

namespace CategoryService

/-- Result of one synchronous local-store operation: the value returned to
the caller, the signal value after the call, whether a `localStorage.setItem`
write was attempted, and whether `console.error` was called. -/
structure LocalOpResult (α : Type) where
  ret : α
  state : List Category
  wrote : Bool
  logged : Bool
deriving DecidableEq, Repr

/-- `generateId`: `Date.now()` concatenated with a hyphen and the random
base-36 suffix (the suffix is the explicit argument `rand`). -/
def generateId (now : Timestamp) (rand : String) : String :=
  toString now ++ "-" ++ rand

/-- `getCategories()`: returns the current signal snapshot. -/
def getCategories (cats : List Category) : List Category :=
  cats

/-- `getCategoryById(id)`: linear `find` over the snapshot. -/
def getCategoryById (cats : List Category) (id : String) : Option Category :=
  cats.find? (fun c => c.id == id)

/-- `categoryCount`: computed signal, `categories().length`. -/
def categoryCount (cats : List Category) : Nat :=
  (getCategories cats).length

/-- `categoryStats`: computed signal,
`{ total: categoryCount, withTasks: 0, empty: categoryCount }`. -/
def categoryStats (cats : List Category) : CategoryStats :=
  { total := categoryCount cats
    withTasks := 0
    empty := categoryCount cats }

/-- `updateCategories(categories)`: `try { localStorage.setItem(...);
signal.set(categories) } catch { console.error(...) }`.  On success the
signal becomes the new list; on a write failure the error is logged and the
signal keeps its current value `cur`.  The catch block does not rethrow, so
both branches are `.ok`; the returned pair is (signal value, logged). -/
def updateCategories (persistOk : Bool) (cur categories : List Category) :
    Except String (List Category × Bool) :=
  if persistOk then
    .ok (categories, false)
  else
    .ok (cur, true)

/-- The `newCategory` record literal built by `createCategory`: fresh id from
`generateId`, DTO content fields, both timestamps `new Date()`. -/
def newCategoryOf (dto : CreateCategoryDto) (now : Timestamp) (rand : String) : Category :=
  { id := generateId now rand
    name := dto.name
    color := dto.color
    backgroundColor := dto.backgroundColor
    icon := dto.icon
    createdAt := now
    updatedAt := now }

/-- `createCategory(dto)`: builds `newCategory`, then
`updateCategories([...currentCategories, newCategory])`, and returns
`newCategory`. -/
def createCategory (dto : CreateCategoryDto) (now : Timestamp) (rand : String)
    (persistOk : Bool) (cur : List Category) :
    Except String (LocalOpResult Category) := do
  let newCategory := newCategoryOf dto now rand
  let (st, logged) ← updateCategories persistOk cur (cur ++ [newCategory])
  return ⟨newCategory, st, true, logged⟩

/-- `updateCategory(id, dto)`: `findIndex` on the snapshot; `-1` (here:
index = length) returns `null` with no write; otherwise the record at the
index is merged with the DTO, the list is rebuilt as
`slice(0, i) ++ [updated] ++ slice(i+1)`, persisted via `updateCategories`,
and the merged record is returned. -/
def updateCategory (id : String) (dto : UpdateCategoryDto) (now : Timestamp)
    (persistOk : Bool) (cur : List Category) :
    Except String (LocalOpResult (Option Category)) :=
  let categoryIndex := cur.findIdx (fun c => c.id == id)
  if h : categoryIndex < cur.length then
    let updatedCategory := mergeUpdate (cur.get ⟨categoryIndex, h⟩) dto now
    let updatedCategories :=
      cur.take categoryIndex ++ [updatedCategory] ++ cur.drop (categoryIndex + 1)
    (updateCategories persistOk cur updatedCategories).map
      (fun (st, logged) => ⟨some updatedCategory, st, true, logged⟩)
  else
    .ok ⟨none, cur, false, false⟩

/-- `deleteCategory(id)`: filters the snapshot; if nothing was removed
returns `false` with no write, else persists the filtered list and returns
`true`. -/
def deleteCategory (id : String) (persistOk : Bool) (cur : List Category) :
    Except String (LocalOpResult Bool) :=
  let filteredCategories := cur.filter (fun c => c.id != id)
  if filteredCategories.length = cur.length then
    .ok ⟨false, cur, false, false⟩
  else
    (updateCategories persistOk cur filteredCategories).map
      (fun (st, logged) => ⟨true, st, true, logged⟩)

/-- `clearAllCategories()`: persists the empty list. -/
def clearAllCategories (persistOk : Bool) (cur : List Category) :
    Except String (LocalOpResult Unit) :=
  (updateCategories persistOk cur []).map
    (fun (st, logged) => ⟨(), st, true, logged⟩)

/-- `getCategoriesWithCount(taskCounts)`: maps the snapshot, spreading each
category and adding `taskCount: taskCounts.get(id) || 0` (for the `Nat`
counts of the model, `x || 0` is exactly `getD 0`).  Pure: reads only the
cached snapshot and touches neither signal nor storage. -/
def getCategoriesWithCount (cats : List Category) (taskCounts : String → Option Nat) :
    List CategoryWithCount :=
  cats.map (fun category =>
    { id := category.id
      name := category.name
      color := category.color
      backgroundColor := category.backgroundColor
      icon := category.icon
      createdAt := category.createdAt
      updatedAt := category.updatedAt
      taskCount := (taskCounts category.id).getD 0 })

/-- What `localStorage.getItem('categories')` plus `JSON.parse` can yield in
`loadCategories`: an absent key, a failing read/parse (any thrown error), or
a parsed array of category-shaped records. -/
inductive StoredValue where
  | absent
  | corrupt (msg : String)
  | valid (categories : List Category)
deriving DecidableEq, Repr

/-- The date-revival map of `loadCategories`:
`{ ...category, createdAt: new Date(category.createdAt), updatedAt: new
Date(category.updatedAt) }`.  ISO serialization round-trips millisecond
timestamps exactly, so revival is the identity on the modelled timestamps. -/
def reviveDates (categories : List Category) : List Category :=
  categories.map (fun category =>
    { category with createdAt := category.createdAt, updatedAt := category.updatedAt })

/-- `loadCategories()`: `try { getItem; if (stored) parse+revive+set } catch
{ console.error; set([]) }`.  The signal starts as `[]`, so an absent key
leaves it empty; the catch block swallows every failure, so the result is
always `.ok` (construction never throws).  Returned pair: (signal value,
logged). -/
def loadCategories (stored : StoredValue) : Except String (List Category × Bool) :=
  match stored with
  | .absent => .ok ([], false)
  | .corrupt _msg => .ok ([], true)
  | .valid categories => .ok (reviveDates categories, false)

/-- One local-store mutation call with its environment inputs, used to
describe the reachable signal states. -/
inductive Op where
  | create (dto : CreateCategoryDto) (now : Timestamp) (rand : String) (persistOk : Bool)
  | update (id : String) (dto : UpdateCategoryDto) (now : Timestamp) (persistOk : Bool)
  | delete (id : String) (persistOk : Bool)
  | clear (persistOk : Bool)

/-- The signal value after one mutation call (an `.error` would leave the
signal as the operation left it; no operation here ever yields one). -/
def applyOp (cats : List Category) (op : Op) : List Category :=
  match op with
  | .create dto now rand persistOk =>
    match createCategory dto now rand persistOk cats with
    | .ok r => r.state
    | .error _ => cats
  | .update id dto now persistOk =>
    match updateCategory id dto now persistOk cats with
    | .ok r => r.state
    | .error _ => cats
  | .delete id persistOk =>
    match deleteCategory id persistOk cats with
    | .ok r => r.state
    | .error _ => cats
  | .clear persistOk =>
    match clearAllCategories persistOk cats with
    | .ok r => r.state
    | .error _ => cats

/-- The signal value reached from the initial `signal([])` by a sequence of
mutation calls. -/
def run (ops : List Op) : List Category :=
  ops.foldl applyOp []

end CategoryService

namespace FirebaseCategoryService

/-- Result of one remote-store operation: the settled promise value
(`.error` = the rethrown failure), the cached signal after the call (write
calls never touch it; only the subscription does), whether a remote write
(`addDoc`/`updateDoc`/`deleteDoc`) was attempted, and whether
`console.error` was called. -/
structure RemoteOpResult (α : Type) where
  ret : Except String α
  state : List Category
  wrote : Bool
  logged : Bool
deriving DecidableEq, Repr

/-- A Firestore document of the `categories` collection as consumed by
`getCategories$`: the document key plus the stored fields, whose server
timestamps may still be absent (`doc.createdAt?.toDate()`). -/
structure CategoryDoc where
  id : String
  name : String
  color : String
  backgroundColor : String
  icon : String
  createdAt : Option Timestamp
  updatedAt : Option Timestamp
deriving DecidableEq, Repr

/-- The per-document mapping of `getCategories$`: key becomes `id`, server
timestamps are converted, falling back to `new Date()` when absent. -/
def mapDoc (now : Timestamp) (doc : CategoryDoc) : Category :=
  { id := doc.id
    name := doc.name
    color := doc.color
    backgroundColor := doc.backgroundColor
    icon := doc.icon
    createdAt := doc.createdAt.getD now
    updatedAt := doc.updatedAt.getD now }

/-- One delivery of the live subscription as handled by `loadCategories`:
on `next` the signal is set wholesale to the mapped documents; on `error`
the failure is logged and the signal is set to `[]`.  Returned pair:
(signal value, logged). -/
def applyNotification (now : Timestamp) (delivered : Except String (List CategoryDoc)) :
    List Category × Bool :=
  match delivered with
  | .ok docs => (docs.map (mapDoc now), false)
  | .error _e => ([], true)

/-- `getCategories()`: returns the current cached snapshot. -/
def getCategories (cache : List Category) : List Category :=
  cache

/-- `getCategoryById(id)`: linear `find` over the cached snapshot. -/
def getCategoryById (cache : List Category) (id : String) : Option Category :=
  cache.find? (fun c => c.id == id)

/-- `categoryCount`: computed signal, `categories().length`. -/
def categoryCount (cache : List Category) : Nat :=
  (getCategories cache).length

/-- `categoryStats`: computed signal,
`{ total: categoryCount, withTasks: 0, empty: categoryCount }`. -/
def categoryStats (cache : List Category) : CategoryStats :=
  { total := categoryCount cache
    withTasks := 0
    empty := categoryCount cache }

/-- The `newCategory` literal returned by the remote `createCategory`: the
Firestore-assigned key, the DTO fields, and `new Date()` for both
timestamps as an approximation of the server timestamps. -/
def newCategoryOf (dto : CreateCategoryDto) (docId : String) (now : Timestamp) : Category :=
  { id := docId
    name := dto.name
    color := dto.color
    backgroundColor := dto.backgroundColor
    icon := dto.icon
    createdAt := now
    updatedAt := now }

/-- `createCategory(dto)`: `try { await addDoc(...); return newCategory }
catch { console.error; throw }`.  The cache is not optimistically updated. -/
def createCategory (dto : CreateCategoryDto) (now : Timestamp) (docId : String)
    (remoteOk : Bool) (cache : List Category) : RemoteOpResult Category :=
  if remoteOk then
    ⟨.ok (newCategoryOf dto docId now), cache, true, false⟩
  else
    ⟨.error "Error al crear categoría en Firestore", cache, true, true⟩

/-- `updateCategory(id, dto)`: existence decided on the cached snapshot; if
absent, `null` with no remote call; else `await updateDoc(...)` and return
the locally merged approximation.  `catch { console.error; throw }`. -/
def updateCategory (id : String) (dto : UpdateCategoryDto) (now : Timestamp)
    (remoteOk : Bool) (cache : List Category) : RemoteOpResult (Option Category) :=
  match getCategoryById cache id with
  | none => ⟨.ok none, cache, false, false⟩
  | some category =>
    if remoteOk then
      ⟨.ok (some (mergeUpdate category dto now)), cache, true, false⟩
    else
      ⟨.error "Error al actualizar categoría en Firestore", cache, true, true⟩

/-- `deleteCategory(id)`: existence decided on the cached snapshot; if
absent, `false` with no remote call; else `await deleteDoc(...)` and return
`true`.  `catch { console.error; throw }`. -/
def deleteCategory (id : String) (remoteOk : Bool) (cache : List Category) :
    RemoteOpResult Bool :=
  match getCategoryById cache id with
  | none => ⟨.ok false, cache, false, false⟩
  | some _category =>
    if remoteOk then
      ⟨.ok true, cache, true, false⟩
    else
      ⟨.error "Error al eliminar categoría en Firestore", cache, true, true⟩

/-- `getCategoriesWithCount(taskCounts)`: identical to the local store's
version, over the cached snapshot. -/
def getCategoriesWithCount (cache : List Category) (taskCounts : String → Option Nat) :
    List CategoryWithCount :=
  cache.map (fun category =>
    { id := category.id
      name := category.name
      color := category.color
      backgroundColor := category.backgroundColor
      icon := category.icon
      createdAt := category.createdAt
      updatedAt := category.updatedAt
      taskCount := (taskCounts category.id).getD 0 })

end FirebaseCategoryService

section Helpers

/-- A list none of whose elements carries the id yields a failing `find`. -/
theorem find?_id_eq_none {cur : List Category} {id : String}
    (h : ∀ c ∈ cur, c.id ≠ id) : cur.find? (fun c => c.id == id) = none :=
  List.find?_eq_none.mpr (fun x hx => by simpa using h x hx)

/-- A successful `find` locates the element at `findIdx`. -/
theorem findIdx_get_of_find? {p : Category → Bool} {cur : List Category} {c : Category}
    (h : cur.find? p = some c) :
    ∃ hlt : cur.findIdx p < cur.length, cur.get ⟨cur.findIdx p, hlt⟩ = c := by
  induction cur with
  | nil => simp at h
  | cons x xs ih =>
    by_cases hp : p x
    · rw [List.find?_cons_of_pos _ hp] at h
      cases h
      refine ⟨by simp [List.findIdx_cons, hp], ?_⟩
      simp [List.findIdx_cons, hp]
    · rw [List.find?_cons_of_neg _ hp] at h
      obtain ⟨hlt, hget⟩ := ih h
      refine ⟨?_, ?_⟩
      · simpa [List.findIdx_cons, hp] using Nat.succ_lt_succ hlt
      · simpa [List.findIdx_cons, hp] using hget

/-- Replacing the element at `findIdx p` by an element satisfying `p` makes
it the first match. -/
theorem find?_replace_at_findIdx {p : Category → Bool} {cur : List Category} {u : Category}
    (hu : p u = true) :
    (cur.take (cur.findIdx p) ++ [u] ++ cur.drop (cur.findIdx p + 1)).find? p = some u := by
  rw [List.append_assoc, List.find?_append]
  have h1 : (cur.take (cur.findIdx p)).find? p = none :=
    List.find?_eq_none.mpr (fun x hx => by simp [List.false_of_mem_take_findIdx hx])
  rw [h1]
  simp [List.find?_cons, hu]

/-- `updateCategory` on a found id reduces to a persist of the spliced list
carrying the merged record. -/
theorem updateCategory_of_found {id : String} {udto : UpdateCategoryDto} {now : Timestamp}
    {persistOk : Bool} {cur : List Category} {c : Category}
    (h : CategoryService.getCategoryById cur id = some c) :
    CategoryService.updateCategory id udto now persistOk cur
      = (CategoryService.updateCategories persistOk cur
            (cur.take (cur.findIdx (fun a => a.id == id))
              ++ [mergeUpdate c udto now]
              ++ cur.drop (cur.findIdx (fun a => a.id == id) + 1))).map
          (fun st => ⟨some (mergeUpdate c udto now), st.1, true, st.2⟩) := by
  obtain ⟨hlt, hget⟩ := findIdx_get_of_find? h
  unfold CategoryService.updateCategory
  rw [dif_pos hlt, hget]

end Helpers

/-- C10: a successful `createCategory` on the local store leaves every prior
element unchanged and in place and appends the new record as the single last
element. -/
theorem claim_C10_create_appends (dto : CreateCategoryDto) (now : Timestamp) (rand : String)
    (cur : List Category) :
    CategoryService.createCategory dto now rand true cur
      = .ok ⟨CategoryService.newCategoryOf dto now rand,
             cur ++ [CategoryService.newCategoryOf dto now rand], true, false⟩ :=
  rfl

/-- C5: in every state of the local store reachable by a sequence of
create/update/delete/clear calls, and in every cached state of the remote
store (in particular every state produced by a subscription notification),
`categoryCount` equals the snapshot length, `categoryStats.total` equals
`categoryCount`, `categoryStats.withTasks` is `0` and `categoryStats.empty`
equals `categoryStats.total`. -/
theorem claim_C5_count_stats_invariant :
    (∀ ops : List CategoryService.Op,
      CategoryService.categoryCount (CategoryService.run ops)
          = (CategoryService.getCategories (CategoryService.run ops)).length ∧
      (CategoryService.categoryStats (CategoryService.run ops)).total
          = CategoryService.categoryCount (CategoryService.run ops) ∧
      (CategoryService.categoryStats (CategoryService.run ops)).withTasks = 0 ∧
      (CategoryService.categoryStats (CategoryService.run ops)).empty
          = (CategoryService.categoryStats (CategoryService.run ops)).total) ∧
    (∀ cache : List Category,
      FirebaseCategoryService.categoryCount cache
          = (FirebaseCategoryService.getCategories cache).length ∧
      (FirebaseCategoryService.categoryStats cache).total
          = FirebaseCategoryService.categoryCount cache ∧
      (FirebaseCategoryService.categoryStats cache).withTasks = 0 ∧
      (FirebaseCategoryService.categoryStats cache).empty
          = (FirebaseCategoryService.categoryStats cache).total) ∧
    (∀ (now : Timestamp) (delivered : Except String (List FirebaseCategoryService.CategoryDoc)),
      FirebaseCategoryService.categoryCount
          (FirebaseCategoryService.applyNotification now delivered).1
        = ((FirebaseCategoryService.applyNotification now delivered).1).length) :=
  ⟨fun _ => ⟨rfl, rfl, rfl, rfl⟩, fun _ => ⟨rfl, rfl, rfl, rfl⟩, fun _ _ => rfl⟩

/-- C8: on local-store construction an absent stored value leaves the
collection empty without logging, any read/parse failure is logged and
resets the collection to empty, and in every case `loadCategories` returns
normally (never raises to the constructing caller). -/
theorem claim_C8_load_failures_nonfatal :
    CategoryService.loadCategories .absent = .ok ([], false) ∧
    (∀ msg, CategoryService.loadCategories (.corrupt msg) = .ok ([], true)) ∧
    (∀ stored, (CategoryService.loadCategories stored).isOk = true) :=
  ⟨rfl, fun _ => rfl, fun stored => by cases stored <;> rfl⟩

/-- C4: update/delete on an id absent from the current collection return
`null`/`false` in both stores, attempt no backing-store write, log nothing,
raise no exception, and leave the collection unchanged — whatever the
backing store would have done (`persistOk`/`remoteOk` arbitrary). -/
theorem claim_C4_not_found_is_benign (id : String) (udto : UpdateCategoryDto)
    (now : Timestamp) (persistOk remoteOk : Bool) (cur cache : List Category)
    (hcur : ∀ c ∈ cur, c.id ≠ id) (hcache : ∀ c ∈ cache, c.id ≠ id) :
    CategoryService.updateCategory id udto now persistOk cur = .ok ⟨none, cur, false, false⟩ ∧
    CategoryService.deleteCategory id persistOk cur = .ok ⟨false, cur, false, false⟩ ∧
    FirebaseCategoryService.updateCategory id udto now remoteOk cache
      = ⟨.ok none, cache, false, false⟩ ∧
    FirebaseCategoryService.deleteCategory id remoteOk cache
      = ⟨.ok false, cache, false, false⟩ := by
  have hfi : cur.findIdx (fun c => c.id == id) = cur.length :=
    List.findIdx_eq_length.mpr (fun x hx => by simpa using hcur x hx)
  have hfil : cur.filter (fun c => c.id != id) = cur :=
    List.filter_eq_self.mpr (fun a ha => by simpa using hcur a ha)
  have hfind : FirebaseCategoryService.getCategoryById cache id = none :=
    find?_id_eq_none hcache
  refine ⟨?_, ?_, ?_, ?_⟩
  · unfold CategoryService.updateCategory
    rw [hfi, dif_neg (lt_irrefl _)]
  · unfold CategoryService.deleteCategory
    rw [hfil, if_pos rfl]
  · unfold FirebaseCategoryService.updateCategory
    rw [hfind]
  · unfold FirebaseCategoryService.deleteCategory
    rw [hfind]

/-- C4 witness: concrete unknown id on concrete one-element stores. -/
theorem claim_C4_not_found_is_benign_witness :
    ((∀ c ∈ [Category.mk "a" "Work" "#fff" "#000" "briefcase" 0 0], c.id ≠ "x") ∧
      (∀ c ∈ ([] : List Category), c.id ≠ "x")) ∧
    (CategoryService.updateCategory "x" ⟨some "Job", none, none, none⟩ 3 true
        [Category.mk "a" "Work" "#fff" "#000" "briefcase" 0 0]
      = .ok ⟨none, [Category.mk "a" "Work" "#fff" "#000" "briefcase" 0 0], false, false⟩ ∧
    CategoryService.deleteCategory "x" true
        [Category.mk "a" "Work" "#fff" "#000" "briefcase" 0 0]
      = .ok ⟨false, [Category.mk "a" "Work" "#fff" "#000" "briefcase" 0 0], false, false⟩ ∧
    FirebaseCategoryService.updateCategory "x" ⟨some "Job", none, none, none⟩ 3 true []
      = ⟨.ok none, [], false, false⟩ ∧
    FirebaseCategoryService.deleteCategory "x" true [] = ⟨.ok false, [], false, false⟩) :=
  ⟨⟨by decide, by decide⟩,
    claim_C4_not_found_is_benign "x" ⟨some "Job", none, none, none⟩ 3 true true
      [Category.mk "a" "Work" "#fff" "#000" "briefcase" 0 0] [] (by decide) (by decide)⟩

/-- C6: deleting a present id from a local collection with pairwise
distinct ids returns `true` and leaves exactly the other elements, in their
original relative order; `getCategoryById` for the deleted id then returns
`none`. -/
theorem claim_C6_delete_removes_exactly_one (x : String) (l1 l2 : List Category)
    (c : Category) (hid : c.id = x)
    (hnodup : ((l1 ++ c :: l2).map Category.id).Nodup) :
    CategoryService.deleteCategory x true (l1 ++ c :: l2)
      = .ok ⟨true, l1 ++ l2, true, false⟩ ∧
    CategoryService.getCategoryById (l1 ++ l2) x = none := by
  rw [List.map_append, List.map_cons] at hnodup
  have h := List.nodup_append.mp hnodup
  have hl1 : ∀ a ∈ l1, a.id ≠ x := by
    intro a ha he
    exact h.2.2 (List.mem_map_of_mem Category.id ha)
      (by rw [he, ← hid]; exact List.mem_cons_self _ _)
  have hl2 : ∀ b ∈ l2, b.id ≠ x := by
    intro b hb he
    exact (List.nodup_cons.mp h.2.1).1
      (by rw [hid, ← he]; exact List.mem_map_of_mem Category.id hb)
  have hfl1 : l1.filter (fun a => a.id != x) = l1 :=
    List.filter_eq_self.mpr (fun a ha => by simpa using hl1 a ha)
  have hfl2 : l2.filter (fun a => a.id != x) = l2 :=
    List.filter_eq_self.mpr (fun b hb => by simpa using hl2 b hb)
  have hfc : (c.id != x) = false := by simp [hid]
  have hfil : (l1 ++ c :: l2).filter (fun a => a.id != x) = l1 ++ l2 := by
    rw [List.filter_append, List.filter_cons]
    simp only [hfc, hfl1, hfl2]
    rfl
  have hlen : (l1 ++ l2).length ≠ (l1 ++ c :: l2).length := by
    simp only [List.length_append, List.length_cons]
    omega
  constructor
  · unfold CategoryService.deleteCategory
    rw [hfil, if_neg hlen]
    rfl
  · exact find?_id_eq_none (fun a ha => (List.mem_append.mp ha).elim (hl1 a) (hl2 a))

/-- C6 witness: three distinct categories; deleting the middle one by id. -/
theorem claim_C6_delete_removes_exactly_one_witness :
    ((Category.mk "b" "B" "#2" "#b2" "i2" 0 0).id = "b" ∧
      (([Category.mk "a" "A" "#1" "#b1" "i1" 0 0]
        ++ Category.mk "b" "B" "#2" "#b2" "i2" 0 0
          :: [Category.mk "c" "C" "#3" "#b3" "i3" 0 0]).map Category.id).Nodup) ∧
    (CategoryService.deleteCategory "b" true
        ([Category.mk "a" "A" "#1" "#b1" "i1" 0 0]
          ++ Category.mk "b" "B" "#2" "#b2" "i2" 0 0
            :: [Category.mk "c" "C" "#3" "#b3" "i3" 0 0])
      = .ok ⟨true, [Category.mk "a" "A" "#1" "#b1" "i1" 0 0]
                    ++ [Category.mk "c" "C" "#3" "#b3" "i3" 0 0], true, false⟩ ∧
    CategoryService.getCategoryById
        ([Category.mk "a" "A" "#1" "#b1" "i1" 0 0]
          ++ [Category.mk "c" "C" "#3" "#b3" "i3" 0 0]) "b" = none) :=
  ⟨⟨by decide, by decide⟩,
    claim_C6_delete_removes_exactly_one "b"
      [Category.mk "a" "A" "#1" "#b1" "i1" 0 0]
      [Category.mk "c" "C" "#3" "#b3" "i3" 0 0]
      (Category.mk "b" "B" "#2" "#b2" "i2" 0 0) (by decide) (by decide)⟩

/-- C7: `getCategoriesWithCount` yields one record per category, in
snapshot order, preserving every category field and assigning `taskCount`
from the supplied mapping, defaulting to `0` when the id is absent; both
stores compute the identical pure function of the cached snapshot (no
persistence access, no state change). -/
theorem claim_C7_with_count_mapping (cats : List Category) (m : String → Option Nat)
    (i : Nat) (h1 : i < cats.length)
    (h2 : i < (CategoryService.getCategoriesWithCount cats m).length) :
    (CategoryService.getCategoriesWithCount cats m).length = cats.length ∧
    FirebaseCategoryService.getCategoriesWithCount cats m
      = CategoryService.getCategoriesWithCount cats m ∧
    ((CategoryService.getCategoriesWithCount cats m).get ⟨i, h2⟩).id
      = (cats.get ⟨i, h1⟩).id ∧
    ((CategoryService.getCategoriesWithCount cats m).get ⟨i, h2⟩).name
      = (cats.get ⟨i, h1⟩).name ∧
    ((CategoryService.getCategoriesWithCount cats m).get ⟨i, h2⟩).color
      = (cats.get ⟨i, h1⟩).color ∧
    ((CategoryService.getCategoriesWithCount cats m).get ⟨i, h2⟩).backgroundColor
      = (cats.get ⟨i, h1⟩).backgroundColor ∧
    ((CategoryService.getCategoriesWithCount cats m).get ⟨i, h2⟩).icon
      = (cats.get ⟨i, h1⟩).icon ∧
    ((CategoryService.getCategoriesWithCount cats m).get ⟨i, h2⟩).createdAt
      = (cats.get ⟨i, h1⟩).createdAt ∧
    ((CategoryService.getCategoriesWithCount cats m).get ⟨i, h2⟩).updatedAt
      = (cats.get ⟨i, h1⟩).updatedAt ∧
    (m (cats.get ⟨i, h1⟩).id = none →
      ((CategoryService.getCategoriesWithCount cats m).get ⟨i, h2⟩).taskCount = 0) ∧
    (∀ n, m (cats.get ⟨i, h1⟩).id = some n →
      ((CategoryService.getCategoriesWithCount cats m).get ⟨i, h2⟩).taskCount = n) := by
  have key : (CategoryService.getCategoriesWithCount cats m).get ⟨i, h2⟩
      = ({ id := (cats.get ⟨i, h1⟩).id
           name := (cats.get ⟨i, h1⟩).name
           color := (cats.get ⟨i, h1⟩).color
           backgroundColor := (cats.get ⟨i, h1⟩).backgroundColor
           icon := (cats.get ⟨i, h1⟩).icon
           createdAt := (cats.get ⟨i, h1⟩).createdAt
           updatedAt := (cats.get ⟨i, h1⟩).updatedAt
           taskCount := (m (cats.get ⟨i, h1⟩).id).getD 0 } : CategoryWithCount) := by
    simp [CategoryService.getCategoriesWithCount, List.get_eq_getElem, List.getElem_map]
  refine ⟨by simp [CategoryService.getCategoriesWithCount], rfl,
    by rw [key], by rw [key], by rw [key], by rw [key], by rw [key],
    by rw [key], by rw [key], ?_, ?_⟩
  · intro h
    rw [key]
    rw [List.get_eq_getElem] at h
    simp [h]
  · intro n h
    rw [key]
    rw [List.get_eq_getElem] at h
    simp [h]

/-- C7 witness: ids `a, b, c` with the mapping `{a: 3, c: 5}`, inspected at
index 2 (taskCount 5 from the mapping). -/
theorem claim_C7_with_count_mapping_witness :
    ((2 : Nat) < ([Category.mk "a" "A" "#1" "#b1" "i1" 0 0,
        Category.mk "b" "B" "#2" "#b2" "i2" 0 0,
        Category.mk "c" "C" "#3" "#b3" "i3" 0 0] : List Category).length ∧
      (2 : Nat) < (CategoryService.getCategoriesWithCount
        [Category.mk "a" "A" "#1" "#b1" "i1" 0 0,
         Category.mk "b" "B" "#2" "#b2" "i2" 0 0,
         Category.mk "c" "C" "#3" "#b3" "i3" 0 0]
        (fun s => if s = "a" then some 3 else if s = "c" then some 5 else none)).length) ∧
    ((CategoryService.getCategoriesWithCount
        [Category.mk "a" "A" "#1" "#b1" "i1" 0 0,
         Category.mk "b" "B" "#2" "#b2" "i2" 0 0,
         Category.mk "c" "C" "#3" "#b3" "i3" 0 0]
        (fun s => if s = "a" then some 3 else if s = "c" then some 5 else none)).length
      = ([Category.mk "a" "A" "#1" "#b1" "i1" 0 0,
          Category.mk "b" "B" "#2" "#b2" "i2" 0 0,
          Category.mk "c" "C" "#3" "#b3" "i3" 0 0] : List Category).length ∧
    ((CategoryService.getCategoriesWithCount
        [Category.mk "a" "A" "#1" "#b1" "i1" 0 0,
         Category.mk "b" "B" "#2" "#b2" "i2" 0 0,
         Category.mk "c" "C" "#3" "#b3" "i3" 0 0]
        (fun s => if s = "a" then some 3 else if s = "c" then some 5 else none)).get
        ⟨2, by decide⟩).taskCount = 5) :=
  ⟨⟨by decide, by decide⟩,
    (claim_C7_with_count_mapping
      [Category.mk "a" "A" "#1" "#b1" "i1" 0 0,
       Category.mk "b" "B" "#2" "#b2" "i2" 0 0,
       Category.mk "c" "C" "#3" "#b3" "i3" 0 0]
      (fun s => if s = "a" then some 3 else if s = "c" then some 5 else none)
      2 (by decide) (by decide)).1,
    (claim_C7_with_count_mapping
      [Category.mk "a" "A" "#1" "#b1" "i1" 0 0,
       Category.mk "b" "B" "#2" "#b2" "i2" 0 0,
       Category.mk "c" "C" "#3" "#b3" "i3" 0 0]
      (fun s => if s = "a" then some 3 else if s = "c" then some 5 else none)
      2 (by decide) (by decide)).2.2.2.2.2.2.2.2.2.2 5 (by decide)⟩

/-- C3 counterexample: `updateCategory` sets `updatedAt` to the current
clock value; when the clock has not advanced past the record's prior
`updatedAt` (here both are `5`), the new `updatedAt` is not strictly
greater than the prior one, refuting the strict-increase clause. -/
theorem claim_C3_counterexample :
    CategoryService.updateCategory "a" ⟨some "Job", none, none, none⟩ 5 true
        [Category.mk "a" "Work" "#fff" "#000" "briefcase" 0 5]
      = .ok ⟨some (Category.mk "a" "Job" "#fff" "#000" "briefcase" 0 5),
             [Category.mk "a" "Job" "#fff" "#000" "briefcase" 0 5], true, false⟩ ∧
    ¬ (Category.updatedAt (Category.mk "a" "Work" "#fff" "#000" "briefcase" 0 5)
        < Category.updatedAt (Category.mk "a" "Job" "#fff" "#000" "briefcase" 0 5)) := by
  refine ⟨by decide, by decide⟩

/-- C3 amended: updating a present category merges exactly the DTO-defined
fields over the prior record, keeps `id`, `createdAt` and every undefined
field unchanged, and sets `updatedAt` to the operation's current time —
hence strictly greater than the prior `updatedAt` whenever the current time
is.  The local store stores the merged record (it is what
`getCategoryById` then returns); the remote store returns the same merge
over its cached record. -/
theorem claim_C3_amended (id : String) (udto : UpdateCategoryDto) (now : Timestamp)
    (cur cache : List Category) (c c2 : Category)
    (hcur : CategoryService.getCategoryById cur id = some c)
    (hcache : FirebaseCategoryService.getCategoryById cache id = some c2) :
    (∀ c' : Category,
      (mergeUpdate c' udto now).id = c'.id ∧
      (mergeUpdate c' udto now).createdAt = c'.createdAt ∧
      (mergeUpdate c' udto now).updatedAt = now ∧
      (udto.name = none → (mergeUpdate c' udto now).name = c'.name) ∧
      (∀ v, udto.name = some v → (mergeUpdate c' udto now).name = v) ∧
      (udto.color = none → (mergeUpdate c' udto now).color = c'.color) ∧
      (∀ v, udto.color = some v → (mergeUpdate c' udto now).color = v) ∧
      (udto.backgroundColor = none →
        (mergeUpdate c' udto now).backgroundColor = c'.backgroundColor) ∧
      (∀ v, udto.backgroundColor = some v → (mergeUpdate c' udto now).backgroundColor = v) ∧
      (udto.icon = none → (mergeUpdate c' udto now).icon = c'.icon) ∧
      (∀ v, udto.icon = some v → (mergeUpdate c' udto now).icon = v) ∧
      (c'.updatedAt < now → c'.updatedAt < (mergeUpdate c' udto now).updatedAt)) ∧
    (∃ st,
      CategoryService.updateCategory id udto now true cur
        = .ok ⟨some (mergeUpdate c udto now), st, true, false⟩ ∧
      CategoryService.getCategoryById st id = some (mergeUpdate c udto now)) ∧
    FirebaseCategoryService.updateCategory id udto now true cache
      = ⟨.ok (some (mergeUpdate c2 udto now)), cache, true, false⟩ := by
  have hcfind : cur.find? (fun a => a.id == id) = some c := hcur
  have hcid : c.id = id := by simpa using List.find?_some hcfind
  refine ⟨?_, ⟨cur.take (cur.findIdx (fun a => a.id == id))
      ++ [mergeUpdate c udto now]
      ++ cur.drop (cur.findIdx (fun a => a.id == id) + 1), ?_, ?_⟩, ?_⟩
  · intro c'
    refine ⟨rfl, rfl, rfl, ?_, ?_, ?_, ?_, ?_, ?_, ?_, ?_, fun h => h⟩ <;>
      first
        | (intro h; simp [mergeUpdate, h])
        | (intro v h; simp [mergeUpdate, h])
  · rw [updateCategory_of_found hcur]
    rfl
  · have hu : ((mergeUpdate c udto now).id == id) = true := by
      simp [mergeUpdate, hcid]
    exact find?_replace_at_findIdx hu
  · unfold FirebaseCategoryService.updateCategory
    rw [hcache]
    rfl

/-- C3 amended, witnessed at concrete one-element stores and a partial DTO
updating only the name. -/
theorem claim_C3_amended_witness :
    (CategoryService.getCategoryById
        [Category.mk "a" "Work" "#fff" "#000" "briefcase" 1 5] "a"
      = some (Category.mk "a" "Work" "#fff" "#000" "briefcase" 1 5) ∧
    FirebaseCategoryService.getCategoryById
        [Category.mk "a" "Casa" "#1" "#2" "home" 2 3] "a"
      = some (Category.mk "a" "Casa" "#1" "#2" "home" 2 3)) ∧
    ((∀ c' : Category,
      (mergeUpdate c' ⟨some "Job", none, none, none⟩ 9).id = c'.id ∧
      (mergeUpdate c' ⟨some "Job", none, none, none⟩ 9).createdAt = c'.createdAt ∧
      (mergeUpdate c' ⟨some "Job", none, none, none⟩ 9).updatedAt = 9 ∧
      ((⟨some "Job", none, none, none⟩ : UpdateCategoryDto).name = none →
        (mergeUpdate c' ⟨some "Job", none, none, none⟩ 9).name = c'.name) ∧
      (∀ v, (⟨some "Job", none, none, none⟩ : UpdateCategoryDto).name = some v →
        (mergeUpdate c' ⟨some "Job", none, none, none⟩ 9).name = v) ∧
      ((⟨some "Job", none, none, none⟩ : UpdateCategoryDto).color = none →
        (mergeUpdate c' ⟨some "Job", none, none, none⟩ 9).color = c'.color) ∧
      (∀ v, (⟨some "Job", none, none, none⟩ : UpdateCategoryDto).color = some v →
        (mergeUpdate c' ⟨some "Job", none, none, none⟩ 9).color = v) ∧
      ((⟨some "Job", none, none, none⟩ : UpdateCategoryDto).backgroundColor = none →
        (mergeUpdate c' ⟨some "Job", none, none, none⟩ 9).backgroundColor
          = c'.backgroundColor) ∧
      (∀ v, (⟨some "Job", none, none, none⟩ : UpdateCategoryDto).backgroundColor = some v →
        (mergeUpdate c' ⟨some "Job", none, none, none⟩ 9).backgroundColor = v) ∧
      ((⟨some "Job", none, none, none⟩ : UpdateCategoryDto).icon = none →
        (mergeUpdate c' ⟨some "Job", none, none, none⟩ 9).icon = c'.icon) ∧
      (∀ v, (⟨some "Job", none, none, none⟩ : UpdateCategoryDto).icon = some v →
        (mergeUpdate c' ⟨some "Job", none, none, none⟩ 9).icon = v) ∧
      (c'.updatedAt < 9 →
        c'.updatedAt < (mergeUpdate c' ⟨some "Job", none, none, none⟩ 9).updatedAt)) ∧
    (∃ st,
      CategoryService.updateCategory "a" ⟨some "Job", none, none, none⟩ 9 true
          [Category.mk "a" "Work" "#fff" "#000" "briefcase" 1 5]
        = .ok ⟨some (mergeUpdate (Category.mk "a" "Work" "#fff" "#000" "briefcase" 1 5)
                      ⟨some "Job", none, none, none⟩ 9), st, true, false⟩ ∧
      CategoryService.getCategoryById st "a"
        = some (mergeUpdate (Category.mk "a" "Work" "#fff" "#000" "briefcase" 1 5)
                  ⟨some "Job", none, none, none⟩ 9)) ∧
    FirebaseCategoryService.updateCategory "a" ⟨some "Job", none, none, none⟩ 9 true
        [Category.mk "a" "Casa" "#1" "#2" "home" 2 3]
      = ⟨.ok (some (mergeUpdate (Category.mk "a" "Casa" "#1" "#2" "home" 2 3)
                      ⟨some "Job", none, none, none⟩ 9)),
         [Category.mk "a" "Casa" "#1" "#2" "home" 2 3], true, false⟩) :=
  ⟨⟨by decide, by decide⟩,
    claim_C3_amended "a" ⟨some "Job", none, none, none⟩ 9
      [Category.mk "a" "Work" "#fff" "#000" "briefcase" 1 5]
      [Category.mk "a" "Casa" "#1" "#2" "home" 2 3]
      (Category.mk "a" "Work" "#fff" "#000" "briefcase" 1 5)
      (Category.mk "a" "Casa" "#1" "#2" "home" 2 3) (by decide) (by decide)⟩

/-- C1 counterexample: on the local store a failing backing write during
`createCategory` is logged (`logged = true`) but the call still returns
normally with the created record (`.ok`, not `.error`), so the failure is
not re-raised to the caller; the claim requires it to be re-raised for both
stores. -/
theorem claim_C1_counterexample :
    CategoryService.createCategory ⟨"Work", "#fff", "#000", "briefcase"⟩ 0 "abc" false []
      = .ok ⟨⟨"0-abc", "Work", "#fff", "#000", "briefcase", 0, 0⟩, [], true, true⟩ := by
  decide

/-- C1 amended: when the backing write fails during create/update/delete,
the remote store logs the failure and re-raises it to the caller, while the
local store logs the failure and leaves the reactive value unchanged but
does not re-raise — the operation returns normally. -/
theorem claim_C1_amended (dto : CreateCategoryDto) (udto : UpdateCategoryDto)
    (id rand docId : String) (now : Timestamp) (cur cache : List Category)
    (hcur : (CategoryService.getCategoryById cur id).isSome)
    (hcache : (FirebaseCategoryService.getCategoryById cache id).isSome) :
    CategoryService.createCategory dto now rand false cur
      = .ok ⟨CategoryService.newCategoryOf dto now rand, cur, true, true⟩ ∧
    (∃ u, CategoryService.updateCategory id udto now false cur
      = .ok ⟨some u, cur, true, true⟩) ∧
    CategoryService.deleteCategory id false cur = .ok ⟨true, cur, true, true⟩ ∧
    FirebaseCategoryService.createCategory dto now docId false cache
      = ⟨.error "Error al crear categoría en Firestore", cache, true, true⟩ ∧
    FirebaseCategoryService.updateCategory id udto now false cache
      = ⟨.error "Error al actualizar categoría en Firestore", cache, true, true⟩ ∧
    FirebaseCategoryService.deleteCategory id false cache
      = ⟨.error "Error al eliminar categoría en Firestore", cache, true, true⟩ := by
  obtain ⟨c, hc⟩ := Option.isSome_iff_exists.mp hcur
  obtain ⟨c2, hc2⟩ := Option.isSome_iff_exists.mp hcache
  have hcfind : cur.find? (fun a => a.id == id) = some c := hc
  have hcmem : c ∈ cur := List.mem_of_find?_eq_some hcfind
  have hcid : c.id = id := by simpa using List.find?_some hcfind
  refine ⟨rfl, ⟨mergeUpdate c udto now, ?_⟩, ?_, rfl, ?_, ?_⟩
  · rw [updateCategory_of_found hc]
    rfl
  · have hlt : (cur.filter (fun a => a.id != id)).length < cur.length :=
      List.length_filter_lt_length_iff_exists.mpr ⟨c, hcmem, by simp [hcid]⟩
    unfold CategoryService.deleteCategory
    rw [if_neg (Nat.ne_of_lt hlt)]
    rfl
  · unfold FirebaseCategoryService.updateCategory
    rw [hc2]
    rfl
  · unfold FirebaseCategoryService.deleteCategory
    rw [hc2]
    rfl

/-- C1 amended, witnessed at concrete one-element stores with a failing
backing write. -/
theorem claim_C1_amended_witness :
    ((CategoryService.getCategoryById
        [Category.mk "x" "Work" "#fff" "#000" "briefcase" 0 0] "x").isSome ∧
      (FirebaseCategoryService.getCategoryById
        [Category.mk "x" "Casa" "#aaa" "#bbb" "home" 1 2] "x").isSome) ∧
    (CategoryService.createCategory ⟨"New", "#1", "#2", "star"⟩ 7 "r" false
        [Category.mk "x" "Work" "#fff" "#000" "briefcase" 0 0]
      = .ok ⟨CategoryService.newCategoryOf ⟨"New", "#1", "#2", "star"⟩ 7 "r",
             [Category.mk "x" "Work" "#fff" "#000" "briefcase" 0 0], true, true⟩ ∧
    (∃ u, CategoryService.updateCategory "x" ⟨some "Job", none, none, none⟩ 7 false
        [Category.mk "x" "Work" "#fff" "#000" "briefcase" 0 0]
      = .ok ⟨some u, [Category.mk "x" "Work" "#fff" "#000" "briefcase" 0 0], true, true⟩) ∧
    CategoryService.deleteCategory "x" false
        [Category.mk "x" "Work" "#fff" "#000" "briefcase" 0 0]
      = .ok ⟨true, [Category.mk "x" "Work" "#fff" "#000" "briefcase" 0 0], true, true⟩ ∧
    FirebaseCategoryService.createCategory ⟨"New", "#1", "#2", "star"⟩ 7 "d1" false
        [Category.mk "x" "Casa" "#aaa" "#bbb" "home" 1 2]
      = ⟨.error "Error al crear categoría en Firestore",
         [Category.mk "x" "Casa" "#aaa" "#bbb" "home" 1 2], true, true⟩ ∧
    FirebaseCategoryService.updateCategory "x" ⟨some "Job", none, none, none⟩ 7 false
        [Category.mk "x" "Casa" "#aaa" "#bbb" "home" 1 2]
      = ⟨.error "Error al actualizar categoría en Firestore",
         [Category.mk "x" "Casa" "#aaa" "#bbb" "home" 1 2], true, true⟩ ∧
    FirebaseCategoryService.deleteCategory "x" false
        [Category.mk "x" "Casa" "#aaa" "#bbb" "home" 1 2]
      = ⟨.error "Error al eliminar categoría en Firestore",
         [Category.mk "x" "Casa" "#aaa" "#bbb" "home" 1 2], true, true⟩) :=
  ⟨⟨by decide, by decide⟩,
    claim_C1_amended ⟨"New", "#1", "#2", "star"⟩ ⟨some "Job", none, none, none⟩
      "x" "r" "d1" 7
      [Category.mk "x" "Work" "#fff" "#000" "briefcase" 0 0]
      [Category.mk "x" "Casa" "#aaa" "#bbb" "home" 1 2] (by decide) (by decide)⟩

/-- C2 counterexample: `generateId` only concatenates the clock with a
random suffix, so a starting store that already contains a category with
that very id defeats the claim: the created record's id (`"0-abc"`) equals
an existing id (not distinct), and `getCategoryById` afterwards returns the
pre-existing record, not the newly created one. -/
theorem claim_C2_counterexample :
    CategoryService.createCategory ⟨"New", "#111", "#222", "star"⟩ 0 "abc" true
        [Category.mk "0-abc" "Old" "#fff" "#000" "briefcase" 0 0]
      = .ok ⟨⟨"0-abc", "New", "#111", "#222", "star", 0, 0⟩,
             [Category.mk "0-abc" "Old" "#fff" "#000" "briefcase" 0 0,
              Category.mk "0-abc" "New" "#111" "#222" "star" 0 0], true, false⟩ ∧
    CategoryService.getCategoryById
        [Category.mk "0-abc" "Old" "#fff" "#000" "briefcase" 0 0,
         Category.mk "0-abc" "New" "#111" "#222" "star" 0 0] "0-abc"
      = some (Category.mk "0-abc" "Old" "#fff" "#000" "briefcase" 0 0) ∧
    Category.mk "0-abc" "Old" "#fff" "#000" "briefcase" 0 0
      ≠ Category.mk "0-abc" "New" "#111" "#222" "star" 0 0 := by
  refine ⟨by decide, by decide, by decide⟩

/-- C2 amended: for every `CreateCategoryDto` and every starting local
collection in which the generated id does not already occur (the write
succeeding), `createCategory` returns a `Category` whose content fields
equal the DTO's, whose id is non-empty and distinct from every existing id,
whose `createdAt` equals `updatedAt`, and `getCategoryById` on the new state
returns that record. -/
theorem claim_C2_amended (dto : CreateCategoryDto) (now : Timestamp) (rand : String)
    (cur : List Category)
    (hfresh : ∀ c ∈ cur, c.id ≠ CategoryService.generateId now rand) :
    ∃ newCategory st,
      CategoryService.createCategory dto now rand true cur
        = .ok ⟨newCategory, st, true, false⟩ ∧
      newCategory.name = dto.name ∧
      newCategory.color = dto.color ∧
      newCategory.backgroundColor = dto.backgroundColor ∧
      newCategory.icon = dto.icon ∧
      newCategory.id ≠ "" ∧
      (∀ c ∈ cur, c.id ≠ newCategory.id) ∧
      newCategory.createdAt = newCategory.updatedAt ∧
      CategoryService.getCategoryById st newCategory.id = some newCategory := by
  refine ⟨CategoryService.newCategoryOf dto now rand,
          cur ++ [CategoryService.newCategoryOf dto now rand],
          rfl, rfl, rfl, rfl, rfl, ?_, hfresh, rfl, ?_⟩
  · intro hemp
    have hlen := congrArg String.length hemp
    have hdash : ("-" : String).length = 1 := rfl
    simp [CategoryService.newCategoryOf, CategoryService.generateId,
      String.length_append, hdash] at hlen
  · unfold CategoryService.getCategoryById
    have hid : (CategoryService.newCategoryOf dto now rand).id
        = CategoryService.generateId now rand := rfl
    rw [List.find?_append, hid, find?_id_eq_none hfresh]
    simp [CategoryService.newCategoryOf]

/-- C2 amended, witnessed at the empty starting store. -/
theorem claim_C2_amended_witness :
    (∀ c ∈ ([] : List Category), c.id ≠ CategoryService.generateId 5 "k4mpl3xyz") ∧
    (∃ newCategory st,
      CategoryService.createCategory ⟨"Work", "#fff", "#000", "briefcase"⟩ 5 "k4mpl3xyz" true []
        = .ok ⟨newCategory, st, true, false⟩ ∧
      newCategory.name = "Work" ∧
      newCategory.color = "#fff" ∧
      newCategory.backgroundColor = "#000" ∧
      newCategory.icon = "briefcase" ∧
      newCategory.id ≠ "" ∧
      (∀ c ∈ ([] : List Category), c.id ≠ newCategory.id) ∧
      newCategory.createdAt = newCategory.updatedAt ∧
      CategoryService.getCategoryById st newCategory.id = some newCategory) :=
  ⟨by decide,
    claim_C2_amended ⟨"Work", "#fff", "#000", "briefcase"⟩ 5 "k4mpl3xyz" [] (by decide)⟩
